import Mathlib

/-!
Shallow embedding of the Custom-Redis server (src/app): the RESP codec
(`parser.py`), the TTL-aware keyspace store (`redis_database.py`) and the
command dispatcher / per-connection loop (`utils.py`).

Modelling conventions:
* Python `bytes` objects are `List Nat` (one `Nat` per byte).
* Python `str` values are identified with their UTF-8 byte content
  (UTF-8 decoding is injective, so this loses nothing); `bytes.decode`
  is a UTF-8 validity check returning those bytes.
* The asyncio event-loop clock is an explicit rational `Time` argument;
  each operation receives the instant at which it runs.
* Python dicts are association lists with most-recent-first insertion;
  dict key uniqueness is maintained because insertion first erases the key.
  Only lookup/erase/insert/iteration semantics matter to the claims.
* A Python exception is an `Except.error` carrying a coarse tag of the
  exception class; the connection loop catches every exception uniformly,
  so only the fact that an exception is raised is behaviourally relevant.
-/

namespace CustomRedis

/-- A Python bytes object: the list of its byte values. -/
abbrev Bytes := List Nat

/-- A store key: the UTF-8 content of the decoded Python string. -/
abbrev Key := Bytes

/-- The asyncio event-loop clock value (`asyncio.get_event_loop().time()`). -/
abbrev Time := ℚ

/-- UTF-8 bytes of an ASCII string literal (all literals used are ASCII). -/
def ascii (s : String) : Bytes := s.data.map Char.toNat

/-- The two-byte CRLF terminator. -/
def crlf : Bytes := ascii ("\r\n")

/-- Decimal representation of a natural, as bytes (`str(n).encode()`). -/
def natRepr (n : Nat) : Bytes := ascii (Nat.repr n)

/-- ASCII apostrophe byte, kept out of string literals. -/
def apos : Nat := 39

/-- The wrong-number-of-arguments reply for the given command name, with
the name wrapped in ASCII apostrophes (byte 39). -/
def wrongArity (cmd : String) : Bytes :=
  ascii ("-ERR wrong number of arguments for ") ++ (apos :: ascii cmd) ++
    (apos :: ascii (" command")) ++ crlf

/-- Coarse tag of the Python exception class raised on an error path. -/
inductive PyErr : Type where
  | valueError
  | typeError
  | attributeError
  | keyError
deriving DecidableEq

/-! ### Python dicts as association lists -/

/-- Dict lookup (`d.get(k)` / `d[k]` after a containment check). -/
def dlookup {V : Type} : List (Key × V) → Key → Option V
  | [], _ => none
  | (k, v) :: l, k2 => if k2 = k then some v else dlookup l k2

/-- Dict deletion `del d[k]` (for a key known present), and the no-op
when the key is absent. -/
def derase {V : Type} (l : List (Key × V)) (k : Key) : List (Key × V) :=
  l.filter (fun p => p.1 ≠ k)

/-- Dict insertion `d[k] = v` (insert or overwrite). -/
def dinsert {V : Type} (l : List (Key × V)) (k : Key) (v : V) : List (Key × V) :=
  (k, v) :: derase l k

theorem dlookup_derase {V : Type} (l : List (Key × V)) (k k2 : Key) :
    dlookup (derase l k) k2 = if k2 = k then none else dlookup l k2 := by
  induction l with
  | nil => simp [derase, dlookup]
  | cons p l ih =>
    obtain ⟨a, v⟩ := p
    by_cases hak : a = k
    · subst hak
      have h1 : derase ((a, v) :: l) a = derase l a := by
        simp [derase, List.filter_cons]
      rw [h1, ih]
      by_cases hk : k2 = a <;> simp [dlookup, hk]
    · have h1 : derase ((a, v) :: l) k = (a, v) :: derase l k := by
        simp [derase, List.filter_cons, hak]
      rw [h1]
      by_cases hka : k2 = a
      · subst hka
        simp [dlookup, hak]
      · simp [dlookup, hka, ih]

theorem dlookup_dinsert {V : Type} (l : List (Key × V)) (k k2 : Key) (v : V) :
    dlookup (dinsert l k v) k2 = if k2 = k then some v else dlookup l k2 := by
  by_cases hk : k2 = k <;> simp [dinsert, dlookup, hk, dlookup_derase]

/-- A key occurs among the keys of a dict iff looking it up succeeds. -/
theorem mem_keys_iff_dlookup_isSome {V : Type} (l : List (Key × V)) (k : Key) :
    k ∈ l.map Prod.fst ↔ (dlookup l k).isSome := by
  induction l with
  | nil => simp [dlookup]
  | cons p l ih =>
    by_cases hk : k = p.1 <;> simp [dlookup, hk, ih]

/-- Keys of a dict are pairwise distinct (holds for every dict built by
`dinsert`/`derase` from the empty dict). -/
def NodupKeys {V : Type} (l : List (Key × V)) : Prop :=
  (l.map Prod.fst).Nodup

theorem nodupKeys_derase {V : Type} {l : List (Key × V)} (h : NodupKeys l) (k : Key) :
    NodupKeys (derase l k) := by
  unfold NodupKeys derase at *
  exact List.Nodup.sublist (List.Sublist.map Prod.fst (List.filter_sublist l)) h

theorem not_mem_keys_derase {V : Type} (l : List (Key × V)) (k : Key) :
    k ∉ (derase l k).map Prod.fst := by
  intro h
  rcases List.mem_map.1 h with ⟨p, hp, hfst⟩
  simp only [derase] at hp
  have hne := (List.mem_filter.1 hp).2
  simp [hfst] at hne

theorem nodupKeys_dinsert {V : Type} {l : List (Key × V)} (h : NodupKeys l) (k : Key) (v : V) :
    NodupKeys (dinsert l k v) := by
  unfold NodupKeys dinsert
  refine List.nodup_cons.2 ⟨?_, nodupKeys_derase h k⟩
  exact not_mem_keys_derase l k

/-! ### The keyspace store (`src/app/redis_database.py`)

Every method body runs under `self.lock`, so each operation is one atomic
step on the state; the lock itself has no further observable content and the
clock reads are the explicit `now` argument. -/

/-- The `RedisDatabase` state: the `data` dict and the `expires` dict
(absolute expiry instants). The value type is a parameter because Python
stores whatever object the caller passes. -/
structure RedisDatabase (V : Type) where
  data : List (Key × V)
  expires : List (Key × Time)
deriving DecidableEq

/-- The state built by `__init__`: two empty dicts. -/
def RedisDatabase.empty (V : Type) : RedisDatabase V := ⟨[], []⟩

/-- Method `set(key, value, expire)`: insert/overwrite `data[key]`; with an expire,
`expires[key] = now + expire`; without, `del expires[key]` if present. -/
def RedisDatabase.set {V : Type} (db : RedisDatabase V) (key : Key) (value : V)
    (expire : Option Time) (now : Time) : RedisDatabase V :=
  { data := dinsert db.data key value
    expires :=
      match expire with
      | some e => dinsert db.expires key (now + e)
      | none => derase db.expires key }

/-- Method `get(key)`: if `key in expires` and `now > expires[key]`, delete the
entry from both dicts and return `None`; otherwise return `data.get(key)`.
The unguarded `del self.data[key]` raises `KeyError` when the key is missing
from `data`. -/
def RedisDatabase.get {V : Type} (db : RedisDatabase V) (key : Key) (now : Time) :
    Except PyErr (Option V × RedisDatabase V) :=
  match dlookup db.expires key with
  | some e =>
    if e < now then
      match dlookup db.data key with
      | some _ => .ok (none, ⟨derase db.data key, derase db.expires key⟩)
      | none => .error .keyError
    else .ok (dlookup db.data key, db)
  | none => .ok (dlookup db.data key, db)

/-- Method `delete(key)`: if `key in data`, delete it from `data` and, when present,
from `expires`. The Python method has no `return` statement, so its value is
`None`, modelled as the first component `none`. -/
def RedisDatabase.delete {V : Type} (db : RedisDatabase V) (key : Key) :
    Option Bool × RedisDatabase V :=
  if (dlookup db.data key).isSome then
    (none, ⟨derase db.data key, derase db.expires key⟩)
  else (none, db)

/-- Method `exists(key)`: `key in data and (key not in expires or now <= expires[key])`.
The method only reads the two dicts; it performs no mutation, which the
`Bool` return type records. -/
def RedisDatabase.existsKey {V : Type} (db : RedisDatabase V) (key : Key) (now : Time) : Bool :=
  (dlookup db.data key).isSome &&
    (match dlookup db.expires key with
     | none => true
     | some e => now ≤ e)

/-- Python truthiness of the return value of `delete` (`None` is falsy), as
tested by `if await redis_db.delete(key_str):` in `process_del`. -/
def optBoolTruthy : Option Bool → Bool
  | none => false
  | some b => b

/-- The body of one sweep iteration after `expired_keys` has been computed:
`del self.data[key]; del self.expires[key]` for each listed key, in order.
`del` raises `KeyError` when the key is missing from the dict. -/
def delExpiredLoop {V : Type} : List Key → RedisDatabase V → Except PyErr (RedisDatabase V)
  | [], db => .ok db
  | k :: ks, db =>
    match dlookup db.data k, dlookup db.expires k with
    | some _, some _ => delExpiredLoop ks ⟨derase db.data k, derase db.expires k⟩
    | _, _ => .error .keyError

/-- One iteration of the while-loop of `remove_expired_keys` at instant `now`:
collect every key of `expires` whose `expire_time <= now` and delete each
from both dicts. -/
def RedisDatabase.remove_expired_keys {V : Type} (db : RedisDatabase V) (now : Time) :
    Except PyErr (RedisDatabase V) :=
  delExpiredLoop ((db.expires.filter (fun p => p.2 ≤ now)).map Prod.fst) db

/-! ### Python primitives used by the codec and dispatcher -/

/-- UTF-8 continuation byte test: `0x80..0xBF`. -/
def utf8Cont (b : Nat) : Bool := 128 ≤ b && b ≤ 191

/-- Validity of a byte sequence as UTF-8, as checked by the Python call
`bytes.decode("utf-8")` (overlong encodings and surrogates rejected). -/
def utf8Valid : Bytes → Bool
  | [] => true
  | b :: rest =>
    if b ≤ 127 then utf8Valid rest
    else if 194 ≤ b && b ≤ 223 then
      match rest with
      | c1 :: r => utf8Cont c1 && utf8Valid r
      | [] => false
    else if b = 224 then
      match rest with
      | c1 :: c2 :: r => (160 ≤ c1 && c1 ≤ 191) && utf8Cont c2 && utf8Valid r
      | _ => false
    else if b = 237 then
      match rest with
      | c1 :: c2 :: r => (128 ≤ c1 && c1 ≤ 159) && utf8Cont c2 && utf8Valid r
      | _ => false
    else if 225 ≤ b && b ≤ 239 then
      match rest with
      | c1 :: c2 :: r => utf8Cont c1 && utf8Cont c2 && utf8Valid r
      | _ => false
    else if b = 240 then
      match rest with
      | c1 :: c2 :: c3 :: r => (144 ≤ c1 && c1 ≤ 191) && utf8Cont c2 && utf8Cont c3 && utf8Valid r
      | _ => false
    else if 241 ≤ b && b ≤ 243 then
      match rest with
      | c1 :: c2 :: c3 :: r => utf8Cont c1 && utf8Cont c2 && utf8Cont c3 && utf8Valid r
      | _ => false
    else if b = 244 then
      match rest with
      | c1 :: c2 :: c3 :: r => (128 ≤ c1 && c1 ≤ 143) && utf8Cont c2 && utf8Cont c3 && utf8Valid r
      | _ => false
    else false

/-- ASCII decimal digit test. -/
def isDigit (b : Nat) : Bool := 48 ≤ b && b ≤ 57

/-- ASCII whitespace, as stripped by the Python `int()`/`float()` conversions. -/
def isSpaceByte (b : Nat) : Bool := b = 32 || (9 ≤ b && b ≤ 13)

/-- Numeric value of a digit string. -/
def digitsVal (l : Bytes) : Nat := l.foldl (fun acc b => 10 * acc + (b - 48)) 0

/-- Strip leading and trailing ASCII whitespace. -/
def stripWs (l : Bytes) : Bytes :=
  ((l.dropWhile isSpaceByte).reverse.dropWhile isSpaceByte).reverse

/-- Continuation of a digit run after its first digit: further digits, with
single underscores allowed strictly between digits (PEP 515 grouping, as
accepted by the CPython `int()` and `float()` conversions — no leading,
trailing or doubled underscore). -/
def digitsGroupedTail : Bytes → Bool
  | [] => true
  | 95 :: rest =>
    match rest with
    | b :: r2 => isDigit b && digitsGroupedTail r2
    | [] => false
  | b :: rest => isDigit b && digitsGroupedTail rest

/-- A nonempty digit run with optional single underscores strictly between
digits. -/
def digitsGrouped : Bytes → Bool
  | [] => false
  | b :: rest => isDigit b && digitsGroupedTail rest

/-- Drop the underscore group separators before computing the value. -/
def stripUnders (l : Bytes) : Bytes := l.filter (fun b => b ≠ 95)

/-- Numeric value of an underscore-grouped digit run. -/
def groupedVal (l : Bytes) : Nat := digitsVal (stripUnders l)

/-- The Python `int()` conversion on bytes: optional surrounding ASCII
whitespace, an optional sign, then a nonempty digit run with optional
underscore grouping. `none` stands for the `ValueError` that `int()`
raises. -/
def pyInt? (b : Bytes) : Option Int :=
  match stripWs b with
  | 43 :: ds => if digitsGrouped ds then some ((groupedVal ds : Int)) else none
  | 45 :: ds => if digitsGrouped ds then some (-(groupedVal ds : Int)) else none
  | ds => if digitsGrouped ds then some ((groupedVal ds : Int)) else none

/-- Split a float literal at the first `e`/`E` into mantissa and exponent. -/
def splitOnExp (s : Bytes) : Bytes × Option Bytes :=
  match s.findIdx? (fun b => b = 101 || b = 69) with
  | some i => (s.take i, some (s.drop (i + 1)))
  | none => (s, none)

/-- Decimal mantissa of a Python float literal: `digits`, `digits.`,
`digits.digits` or `.digits` (at least one digit overall, each digit run
optionally underscore-grouped). -/
def parseMantissa? (s : Bytes) : Option ℚ :=
  match s.findIdx? (fun b => b = 46) with
  | none => if digitsGrouped s then some ((groupedVal s : ℚ)) else none
  | some i =>
    let ip := s.take i
    let fp := s.drop (i + 1)
    if (!ip.isEmpty || !fp.isEmpty)
        && (ip.isEmpty || digitsGrouped ip) && (fp.isEmpty || digitsGrouped fp) then
      some ((groupedVal ip : ℚ) + (groupedVal fp : ℚ) / ((10 : ℚ) ^ (stripUnders fp).length))
    else none

/-- An optionally signed nonempty digit run (the exponent part), with
optional underscore grouping. -/
def parseSignedDigits? (s : Bytes) : Option Int :=
  match s with
  | 43 :: ds => if digitsGrouped ds then some ((groupedVal ds : Int)) else none
  | 45 :: ds => if digitsGrouped ds then some (-(groupedVal ds : Int)) else none
  | ds => if digitsGrouped ds then some ((groupedVal ds : Int)) else none

/-- Unsigned part of a finite `float()` literal: mantissa with optional
exponent. -/
def pyFloatMag? (mag : Bytes) : Option ℚ :=
  match splitOnExp mag with
  | (m, e?) =>
    match parseMantissa? m with
    | none => none
    | some q =>
      match e? with
      | none => some q
      | some es =>
        match parseSignedDigits? es with
        | none => none
        | some ex => some (q * (10 : ℚ) ^ ex)

/-- The finite-literal part of the Python `float()` conversion: optional
whitespace and sign, decimal mantissa, optional `e`/`E` exponent, with
underscore grouping, yielding the exact rational value (CPython rounds it
to the nearest double, which no claim depends on). `float()` additionally
accepts the IEEE specials classified by `pyFloatSpecial` below; it raises
`ValueError` exactly when both this function returns `none` and
`pyFloatSpecial` is false — see `pyFloatVal`. -/
def pyFloat? (b : Bytes) : Option ℚ :=
  match stripWs b with
  | 43 :: r => pyFloatMag? r
  | 45 :: r => (pyFloatMag? r).map (fun q => -q)
  | r => pyFloatMag? r

/-- ASCII lowercasing, for the case-insensitive special-value words. -/
def asciiLower (b : Bytes) : Bytes :=
  b.map (fun c => if 65 ≤ c && c ≤ 90 then c + 32 else c)

/-- Case-insensitive match of the words `inf`, `infinity` or `nan`. -/
def isSpecialWord (r : Bytes) : Bool :=
  asciiLower r = ascii ("inf") || asciiLower r = ascii ("infinity")
    || asciiLower r = ascii ("nan")

/-- The IEEE specials accepted by the Python `float()` conversion beyond the
finite decimal literals: optional whitespace and sign around a
case-insensitive `inf`, `infinity` or `nan`. -/
def pyFloatSpecial (b : Bytes) : Bool :=
  match stripWs b with
  | 43 :: r => isSpecialWord r
  | 45 :: r => isSpecialWord r
  | r => isSpecialWord r

/-! ### Parse results (`RESPParser` return values) -/

/-- A Python object produced by the RESP parser. -/
inductive PyVal : Type where
  | bulk (b : Bytes)        -- a bytes object (bulk string payload)
  | str (s : Bytes)         -- a str (simple string / error), as UTF-8 content
  | int (n : Int)           -- an int (integer frame)
  | list (xs : List PyVal)  -- a list (array frame)

/-- Python truthiness of one parsed value: empty sequences, the empty
string and `0` are falsy. -/
def pyvalTruthy : PyVal → Bool
  | .bulk b => !b.isEmpty
  | .str s => !s.isEmpty
  | .int n => n ≠ 0
  | .list xs => !xs.isEmpty

/-- Python truthiness of the top-level parse result (`if not res:`);
`None` is falsy. -/
def pyTruthyOpt : Option PyVal → Bool
  | none => false
  | some v => pyvalTruthy v

/-! ### The RESP codec (`src/app/parser.py`) -/

/-- Parser state: the received chunk and the cursor
(`self.data`, `self.index`). -/
structure ParseState where
  data : Bytes
  index : Nat
deriving DecidableEq

/-- Offset of the first CRLF pair in a byte list (`bytes.find(b"\r\n")`
relative to the search start). -/
def crlfPos : Bytes → Option Nat
  | 13 :: 10 :: _ => some 0
  | _ :: rest => (crlfPos rest).map (fun i => i + 1)
  | [] => none

/-- The slice `data[i:j]`. -/
def sliceB (data : Bytes) (i j : Nat) : Bytes := (data.drop i).take (j - i)

/-- Method `read_line`: find CRLF at or after the cursor; raise `ValueError`
("Incomplete line in RESP data") if absent; otherwise return the bytes
strictly before it and advance the cursor past it. -/
def readLine (st : ParseState) : Except PyErr (Bytes × ParseState) :=
  match crlfPos (st.data.drop st.index) with
  | none => .error .valueError
  | some off =>
    .ok (sliceB st.data st.index (st.index + off), ⟨st.data, st.index + off + 2⟩)

/-- Method `parse_bulk_string`: read the decimal length line; a negative length is
the null bulk string (`None`); raise `ValueError` ("Incomplete bulk string")
if fewer than `length + 2` bytes remain; otherwise take `length` payload
bytes and advance the cursor `length + 2`, without inspecting the two bytes
skipped after the payload. -/
def parse_bulk_string (st : ParseState) : Except PyErr (Option PyVal × ParseState) :=
  match readLine st with
  | .error e => .error e
  | .ok (line, st1) =>
    match pyInt? line with
    | none => .error .valueError
    | some L =>
      if L < 0 then .ok (none, st1)
      else
        let len := L.toNat
        if st1.index + len + 2 > st1.data.length then .error .valueError
        else .ok (some (.bulk (sliceB st1.data st1.index (st1.index + len))),
                  ⟨st1.data, st1.index + len + 2⟩)

/-- Method `parse_simple_string`: one line, decoded as UTF-8 text
(`UnicodeDecodeError`, a `ValueError`, on invalid bytes). -/
def parse_simple_string (st : ParseState) : Except PyErr (Option PyVal × ParseState) :=
  match readLine st with
  | .error e => .error e
  | .ok (line, st1) =>
    if utf8Valid line then .ok (some (.str line), st1) else .error .valueError

/-- Method `parse_error`: identical to `parse_simple_string` in the source. -/
def parse_error (st : ParseState) : Except PyErr (Option PyVal × ParseState) :=
  match readLine st with
  | .error e => .error e
  | .ok (line, st1) =>
    if utf8Valid line then .ok (some (.str line), st1) else .error .valueError

/-- Method `parse_integer`: one line through `int()`. -/
def parse_integer (st : ParseState) : Except PyErr (Option PyVal × ParseState) :=
  match readLine st with
  | .error e => .error e
  | .ok (line, st1) =>
    match pyInt? line with
    | some n => .ok (some (.int n), st1)
    | none => .error .valueError

/-! The mutually recursive `parse` / `parse_array` pair is embedded with a
fuel argument to make the recursion structural. Every level of the call tree
first consumes at least one input byte, so running the parser with fuel
larger than four times the chunk length can never exhaust it; the fuel-zero
branch is unreachable from `RESPParser.parse`. -/

mutual

/-- Method `parse`: end of data yields `None`; otherwise one prefix byte selects
the sub-parser (`*` array, `$` bulk, `+` simple, `-` error, `:` integer);
an unknown prefix raises `ValueError`. -/
def parseF : Nat → ParseState → Except PyErr (Option PyVal × ParseState)
  | 0, _ => .error .valueError
  | fuel + 1, st =>
    if st.index ≥ st.data.length then .ok (none, st)
    else
      let b0 := st.data.getD st.index 0
      let st1 : ParseState := ⟨st.data, st.index + 1⟩
      if b0 = 42 then parse_arrayF fuel st1
      else if b0 = 36 then parse_bulk_string st1
      else if b0 = 43 then parse_simple_string st1
      else if b0 = 45 then parse_error st1
      else if b0 = 58 then parse_integer st1
      else .error .valueError

/-- Method `parse_array`: read the decimal count line; a negative count is the null
array (`None`); otherwise parse exactly that many elements, raising
`ValueError` ("Incomplete array element") when an element parse returns
`None`. The final `assert len(array) == length` of the source always holds. -/
def parse_arrayF : Nat → ParseState → Except PyErr (Option PyVal × ParseState)
  | 0, _ => .error .valueError
  | fuel + 1, st =>
    match readLine st with
    | .error e => .error e
    | .ok (line, st1) =>
      match pyInt? line with
      | none => .error .valueError
      | some L =>
        if L < 0 then .ok (none, st1)
        else
          match parseElemsF fuel L.toNat st1 with
          | .error e => .error e
          | .ok (xs, st2) => .ok (some (.list xs), st2)

/-- The element loop of `parse_array`. -/
def parseElemsF : Nat → Nat → ParseState → Except PyErr (List PyVal × ParseState)
  | 0, _, _ => .error .valueError
  | _ + 1, 0, st => .ok ([], st)
  | fuel + 1, n + 1, st =>
    match parseF fuel st with
    | .error e => .error e
    | .ok (none, _) => .error .valueError
    | .ok (some v, st1) =>
      match parseElemsF fuel n st1 with
      | .error e => .error e
      | .ok (xs, st2) => .ok (v :: xs, st2)

end

/-- Entry point `RESPParser(data).parse()`: run the parser on a fresh chunk anchored at
offset 0 (the fuel bound can never be reached, see above). -/
def RESPParser.parse (data : Bytes) : Except PyErr (Option PyVal) :=
  match parseF (4 * data.length + 8) ⟨data, 0⟩ with
  | .error e => .error e
  | .ok (res, _) => .ok res

/-! ### The command dispatcher and connection loop (`src/app/utils.py`) -/

/-- Call `x.decode("utf-8")` on a parsed element: only a bytes object has a
`decode` attribute (`AttributeError` otherwise); invalid UTF-8 raises
`UnicodeDecodeError` (a `ValueError`). The decoded str is identified with
its UTF-8 byte content. -/
def pyDecode : PyVal → Except PyErr Bytes
  | .bulk b => if utf8Valid b then .ok b else .error .valueError
  | _ => .error .attributeError

/-- Call `str.upper()` restricted to ASCII letters: the command and option tokens
it is compared against are ASCII literals, for which this agrees with
the full Unicode uppercasing of Python. -/
def asciiUpper (b : Bytes) : Bytes :=
  b.map (fun c => if 97 ≤ c && c ≤ 122 then c - 32 else c)

/-- Handler `process_ping`: the constant `b"+PONG\r\n"`. -/
def process_ping : Bytes := ascii ("+PONG\r\n")

/-- A bulk-string reply `b"$" + str(len(b)).encode() + b"\r\n" + b + b"\r\n"`. -/
def bulkReply (b : Bytes) : Bytes :=
  ascii ("$") ++ natRepr b.length ++ crlf ++ b ++ crlf

/-- Handler `process_echo`: with `len(message) >= 2`, reply the bulk-string echo of
`message[1]` (`len()` plus bytes concatenation raise unless it is a bytes
object); otherwise the echo arity error. -/
def process_echo (message : List PyVal) : Except PyErr Bytes :=
  if 2 ≤ message.length then
    match message.get? 1 with
    | some (.bulk b) => .ok (bulkReply b)
    | _ => .error .typeError
  else .ok (wrongArity ("echo"))

/-- Handler `process_get`: arity 2 decodes the key, calls the store and replies the
bulk string of the value (or the null bulk `$-1` when absent); any other
arity replies the get arity error. The second component is the store state
when the handler returns or when an exception escapes it. -/
def process_get (redis_db : RedisDatabase PyVal) (message : List PyVal) (now : Time) :
    Except PyErr Bytes × RedisDatabase PyVal :=
  match message with
  | [_, m1] =>
    (match pyDecode m1 with
     | .error e => (.error e, redis_db)
     | .ok key =>
       match redis_db.get key now with
       | .error e => (.error e, redis_db)
       | .ok (some (.bulk b), db2) => (.ok (bulkReply b), db2)
       | .ok (some _, db2) => (.error .typeError, db2)
       | .ok (none, db2) => (.ok (ascii ("$-1\r\n")), db2))
  | _ => (.ok (wrongArity ("get")), redis_db)

/-- Call `float(message[4])` on a parsed element: bytes and str go through
the `float()` grammar — a finite decimal literal converts to its exact
rational `.ok (some q)`, an accepted IEEE special (optionally signed
`inf`/`infinity`/`nan`) converts successfully but to no finite rational,
recorded as `.ok none`, and everything else raises `ValueError`; an int
converts exactly; a list raises `TypeError`. `float()` raises on exactly
the `.error` cases here. -/
def pyFloatVal : PyVal → Except PyErr (Option Time)
  | .bulk b =>
    (match pyFloat? b with
     | some q => .ok (some q)
     | none => if pyFloatSpecial b then .ok none else .error .valueError)
  | .str s =>
    (match pyFloat? s with
     | some q => .ok (some q)
     | none => if pyFloatSpecial s then .ok none else .error .valueError)
  | .int n => .ok (some ((n : ℚ)))
  | .list _ => .error .typeError

/-- Handler `process_set`: arity 3 stores with no expiry; arity 5 evaluates
`expire = float(message[4])` first, halves into the `PX` branch (divide by
1000) when the uppercased 4th token equals `PX`, leaves the value unchanged
otherwise (the `EX` branch is a `pass`, and any other token falls through
with the same effect), then stores with that expiry; other arities reply the
set arity error. When `float()` yields an IEEE special the command still
replies OK with the `PX` division preserving the special (`inf/1000 = inf`);
Python then stores a non-finite expiry instant, which the rational store
embedding records as an entry without a finite expiry: for `+inf` this is
observationally exact (`get`, `exists`, `delete`, overwriting `set` and the
sweep all treat a `+inf` expiry exactly like no expiry), while for the
pathological `-inf` (Python: expired at once) and `nan` (Python: `get`
keeps the value yet `exists` is false — a behavior no rational expiry
reproduces) it is a documented approximation that no claim touches. -/
def process_set (redis_db : RedisDatabase PyVal) (message : List PyVal) (now : Time) :
    Except PyErr Bytes × RedisDatabase PyVal :=
  match message with
  | [_, m1, m2] =>
    (match pyDecode m1 with
     | .error e => (.error e, redis_db)
     | .ok key => (.ok (ascii ("+OK\r\n")), redis_db.set key m2 none now))
  | [_, m1, m2, m3, m4] =>
    (match pyDecode m1 with
     | .error e => (.error e, redis_db)
     | .ok key =>
       match pyFloatVal m4 with
       | .error e => (.error e, redis_db)
       | .ok expire? =>
         match pyDecode m3 with
         | .error e => (.error e, redis_db)
         | .ok tok =>
           match expire? with
           | some expire0 =>
             let expire := if asciiUpper tok = ascii ("PX") then expire0 / 1000 else expire0
             (.ok (ascii ("+OK\r\n")), redis_db.set key m2 (some expire) now)
           | none =>
             (.ok (ascii ("+OK\r\n")), redis_db.set key m2 none now))
  | _ => (.ok (wrongArity ("set")), redis_db)

/-- The key loop of `process_del`: decode each key, call the store method
`delete`, and increment `count` when its return value is truthy — it never
is, because `delete` returns `None`. A decode failure aborts the loop with
the store in its current (possibly already mutated) state. -/
def delCmdLoop (redis_db : RedisDatabase PyVal) (keys : List PyVal) (count : Nat) :
    Except PyErr Bytes × RedisDatabase PyVal :=
  match keys with
  | [] => (.ok (ascii (":") ++ natRepr count ++ crlf), redis_db)
  | kv :: rest =>
    match pyDecode kv with
    | .error e => (.error e, redis_db)
    | .ok k =>
      match redis_db.delete k with
      | (r, db2) => delCmdLoop db2 rest (if optBoolTruthy r then count + 1 else count)

/-- Handler `process_del`: with `len(message) >= 2`, run the key loop over
`message[1:]` starting from `count = 0`; otherwise the del arity error. -/
def process_del (redis_db : RedisDatabase PyVal) (message : List PyVal) :
    Except PyErr Bytes × RedisDatabase PyVal :=
  if 2 ≤ message.length then delCmdLoop redis_db (message.drop 1) 0
  else (.ok (wrongArity ("del")), redis_db)

/-- Outcome of one iteration of the loop of `handle_client` on one received
chunk. -/
inductive Outcome : Type where
  | reply (resp : Bytes)      -- reply written; the loop continues (connection open)
  | closedNoReply             -- empty read: loop breaks without a reply
  | quitClosed                -- QUIT: `b"+OK\r\n"` written, then the loop breaks
  | internalError (e : PyErr) -- exception caught: `b"-ERR Internal error: ..."` written, then the loop breaks
deriving DecidableEq

/-- The command table of `handle_client` after a successful
`res[0].decode("utf-8").upper()`. -/
def dispatch (redis_db : RedisDatabase PyVal) (now : Time) (res : List PyVal)
    (command : Bytes) : Outcome × RedisDatabase PyVal :=
  if command = ascii ("PING") then (.reply process_ping, redis_db)
  else if command = ascii ("ECHO") then
    match process_echo res with
    | .ok b => (.reply b, redis_db)
    | .error e => (.internalError e, redis_db)
  else if command = ascii ("GET") then
    match process_get redis_db res now with
    | (.ok b, db2) => (.reply b, db2)
    | (.error e, db2) => (.internalError e, db2)
  else if command = ascii ("SET") then
    match process_set redis_db res now with
    | (.ok b, db2) => (.reply b, db2)
    | (.error e, db2) => (.internalError e, db2)
  else if command = ascii ("DEL") then
    match process_del redis_db res with
    | (.ok b, db2) => (.reply b, db2)
    | (.error e, db2) => (.internalError e, db2)
  else if command = ascii ("QUIT") then (.quitClosed, redis_db)
  else (.reply (ascii ("-ERR Unknown command")  ++ crlf), redis_db)

/-- One iteration of `handle_client` on one chunk read at instant `now`:
an empty read breaks the loop silently; the chunk is parsed by a fresh
`RESPParser`; a falsy result replies "Invalid command format" (connection
stays open); otherwise `res[0].decode("utf-8").upper()` is dispatched —
subscripting a truthy non-list raises (`int` is unsubscriptable, indexing a
`str` or `bytes` yields an object without `decode`), and any exception is
caught, answered with the generic internal-error reply, and breaks the
loop. -/
def handle_client (redis_db : RedisDatabase PyVal) (now : Time) (data : Bytes) :
    Outcome × RedisDatabase PyVal :=
  if data.isEmpty then (.closedNoReply, redis_db)
  else
    match RESPParser.parse data with
    | .error e => (.internalError e, redis_db)
    | .ok res =>
      if pyTruthyOpt res = false then
        (.reply (ascii ("-ERR Invalid command format") ++ crlf), redis_db)
      else
        match res with
        | some (.list (e0 :: rest)) =>
          (match pyDecode e0 with
           | .error e => (.internalError e, redis_db)
           | .ok name => dispatch redis_db now (e0 :: rest) (asciiUpper name))
        | some (.list []) =>   -- unreachable: an empty list is falsy
          (.reply (ascii ("-ERR Invalid command format") ++ crlf), redis_db)
        | some (.int _) => (.internalError .typeError, redis_db)
        | some (.str _) => (.internalError .attributeError, redis_db)
        | some (.bulk _) => (.internalError .attributeError, redis_db)
        | none =>              -- unreachable: `None` is falsy
          (.reply (ascii ("-ERR Invalid command format") ++ crlf), redis_db)

/-! ### Claim C4 -/

/-- Claim C4: for every key, value and `ttl > 0`, immediately after
`set(key, value, ttl)` (and at any instant up to the expiry instant)
`get(key)` returns the value; at any instant strictly after `t0 + ttl`,
`get(key)` returns absent and removes the stored entry from both dicts as a
side effect, and `exists(key)` returns false as well. -/
theorem C4_ttl_set_get_expiry (V : Type) (db : RedisDatabase V) (k : Key) (v : V)
    (ttl t0 t1 t2 : Time) (h0 : 0 < ttl) (h1 : t1 ≤ t0 + ttl) (h2 : t0 + ttl < t2) :
    (db.set k v (some ttl) t0).get k t1 = .ok (some v, db.set k v (some ttl) t0)
    ∧ (db.set k v (some ttl) t0).get k t2
        = .ok (none, ⟨derase (db.set k v (some ttl) t0).data k,
                      derase (db.set k v (some ttl) t0).expires k⟩)
    ∧ dlookup (derase (db.set k v (some ttl) t0).data k) k = none
    ∧ (db.set k v (some ttl) t0).existsKey k t2 = false := by
  have hel : dlookup (db.set k v (some ttl) t0).expires k = some (t0 + ttl) := by
    simp [RedisDatabase.set, dlookup_dinsert]
  have hdl : dlookup (db.set k v (some ttl) t0).data k = some v := by
    simp [RedisDatabase.set, dlookup_dinsert]
  refine ⟨?_, ?_, ?_, ?_⟩
  · simp [RedisDatabase.get, hel, hdl, not_lt.mpr h1]
  · simp [RedisDatabase.get, hel, hdl, h2]
  · simp [dlookup_derase]
  · simp [RedisDatabase.existsKey, hel, hdl, not_le.mpr h2]

/-- Witness for C4 at a concrete store, key, value and times. -/
theorem C4_witness :
    ((0 : ℚ) < 1 ∧ (0 : ℚ) ≤ 0 + 1 ∧ (0 : ℚ) + 1 < 2)
    ∧ (((RedisDatabase.empty Nat).set [97] 5 (some 1) 0).get [97] 0
        = .ok (some 5, (RedisDatabase.empty Nat).set [97] 5 (some 1) 0)
      ∧ ((RedisDatabase.empty Nat).set [97] 5 (some 1) 0).get [97] 2
          = .ok (none, ⟨derase ((RedisDatabase.empty Nat).set [97] 5 (some 1) 0).data [97],
                        derase ((RedisDatabase.empty Nat).set [97] 5 (some 1) 0).expires [97]⟩)
      ∧ dlookup (derase ((RedisDatabase.empty Nat).set [97] 5 (some 1) 0).data [97]) [97] = none
      ∧ ((RedisDatabase.empty Nat).set [97] 5 (some 1) 0).existsKey [97] 2 = false) :=
  ⟨⟨by norm_num, by norm_num, by norm_num⟩,
   C4_ttl_set_get_expiry Nat (RedisDatabase.empty Nat) [97] 5 1 0 0 2
     (by norm_num) (by norm_num) (by norm_num)⟩

/-! ### Claim C6 -/

/-- Claim C6: after `set(key, value)` with no TTL, `get(key)` returns the
value at every instant (no implicit expiry), the overwrite clears any expiry
previously attached to that key, and `exists(key)` stays true. -/
theorem C6_no_ttl_persists (V : Type) (db : RedisDatabase V) (k : Key) (v : V) (t0 t : Time) :
    (db.set k v none t0).get k t = .ok (some v, db.set k v none t0)
    ∧ dlookup (db.set k v none t0).expires k = none
    ∧ (db.set k v none t0).existsKey k t = true := by
  have he : dlookup (db.set k v none t0).expires k = none := by
    simp [RedisDatabase.set, dlookup_derase]
  have hd : dlookup (db.set k v none t0).data k = some v := by
    simp [RedisDatabase.set, dlookup_dinsert]
  exact ⟨by simp [RedisDatabase.get, he, hd], he,
         by simp [RedisDatabase.existsKey, he, hd]⟩

/-! ### Claim C8 -/

/-- Claim C8: at every instant, `exists(key)` is true iff `get(key)` would
return a value — the two share one expiry test (`now <= expires[key]`
against `now > expires[key]`), so they agree at the exact expiry instant —
and when `get` does return a value it leaves the store untouched, just as
`exists` (whose embedding returns only a `Bool`, mirroring the read-only
Python method) never mutates it. -/
theorem C8_exists_iff_get_value (V : Type) (db : RedisDatabase V) (k : Key) (now : Time) :
    (db.existsKey k now = true ↔ ∃ v db2, db.get k now = .ok (some v, db2))
    ∧ (∀ v db2, db.get k now = .ok (some v, db2) → db2 = db) := by
  unfold RedisDatabase.existsKey RedisDatabase.get
  cases he : dlookup db.expires k with
  | none =>
    cases hd : dlookup db.data k with
    | none => simp
    | some v => simp
  | some e =>
    by_cases hlt : e < now
    · cases hd : dlookup db.data k with
      | none => simp [hlt, not_le.mpr hlt]
      | some v => simp [hlt, not_le.mpr hlt]
    · cases hd : dlookup db.data k with
      | none => simp [hlt]
      | some v => simp [hlt, le_of_not_lt hlt]

/-! ### Claim C1 -/

/-- Claim C1 (code bug): `RedisDatabase.delete` has no return statement, so
the per-key truthiness test in `process_del` never fires and DEL always replies
`:0` no matter how many live keys it removes. At a store holding the single
live key `"a"`, the command `DEL a` is answered with `:0` (the claim, and
the docstring of `process_del` itself, require `:1`) even though the key is indeed
removed: the resulting store is empty. -/
theorem C1_del_replies_zero :
    ((RedisDatabase.empty PyVal).set (ascii ("a")) (.bulk (ascii ("v"))) none 0).existsKey
        (ascii ("a")) 0 = true
    ∧ handle_client
        ((RedisDatabase.empty PyVal).set (ascii ("a")) (.bulk (ascii ("v"))) none 0) 0
        (ascii ("*2\r\n$3\r\nDEL\r\n$1\r\na\r\n"))
      = (.reply (ascii (":0\r\n")), RedisDatabase.empty PyVal) :=
  ⟨rfl, rfl⟩

/-! ### Claim C2 -/

/-- Claim C2 counterexample: a 5-arity SET whose 4th token (`XX`) is neither
`EX` nor `PX` replies OK but attaches an expiry to the stored entry
(`float(arg5)` seconds), contradicting "the stored entry receives no
TTL/expiry". -/
theorem C2_counterexample :
    (process_set (RedisDatabase.empty PyVal)
        [.bulk (ascii ("SET")), .bulk (ascii ("k")), .bulk (ascii ("v")),
         .bulk (ascii ("XX")), .bulk (ascii ("5"))] 0).1 = .ok (ascii ("+OK\r\n"))
    ∧ (dlookup (process_set (RedisDatabase.empty PyVal)
        [.bulk (ascii ("SET")), .bulk (ascii ("k")), .bulk (ascii ("v")),
         .bulk (ascii ("XX")), .bulk (ascii ("5"))] 0).2.expires (ascii ("k"))).isSome
      = true :=
  ⟨rfl, rfl⟩

/-- Claim C2 as amended: a 5-arity SET whose uppercased 4th token is neither
`EX` nor `PX` replies OK and is treated exactly like `EX` — the stored entry
receives the expiry `now + float(arg5)` seconds. -/
theorem C2_other_token_applies_seconds
    (db : RedisDatabase PyVal) (now : Time) (m0 m2 : PyVal) (k tok num : Bytes) (q : ℚ)
    (hk : utf8Valid k = true) (htok : utf8Valid tok = true)
    (hnum : pyFloat? num = some q)
    (hpx : asciiUpper tok ≠ ascii ("PX")) (hex : asciiUpper tok ≠ ascii ("EX")) :
    process_set db [m0, .bulk k, m2, .bulk tok, .bulk num] now
      = (.ok (ascii ("+OK\r\n")), db.set k m2 (some q) now)
    ∧ dlookup (db.set k m2 (some q) now).expires k = some (now + q) := by
  constructor
  · simp [process_set, pyDecode, hk, htok, pyFloatVal, hnum, if_neg hpx]
  · simp [RedisDatabase.set, dlookup_dinsert]

/-- Witness for C2 with the concrete token `AB` and magnitude `7`. -/
theorem C2_witness :
    (utf8Valid (ascii ("k")) = true ∧ utf8Valid (ascii ("AB")) = true
     ∧ pyFloat? (ascii ("7")) = some 7
     ∧ asciiUpper (ascii ("AB")) ≠ ascii ("PX") ∧ asciiUpper (ascii ("AB")) ≠ ascii ("EX"))
    ∧ (process_set (RedisDatabase.empty PyVal)
        [.bulk (ascii ("SET")), .bulk (ascii ("k")), .bulk (ascii ("v")),
         .bulk (ascii ("AB")), .bulk (ascii ("7"))] 0
      = (.ok (ascii ("+OK\r\n")),
         (RedisDatabase.empty PyVal).set (ascii ("k")) (.bulk (ascii ("v"))) (some 7) 0)
    ∧ dlookup ((RedisDatabase.empty PyVal).set (ascii ("k")) (.bulk (ascii ("v")))
        (some 7) 0).expires (ascii ("k")) = some (0 + 7)) :=
  ⟨⟨rfl, rfl, rfl, by decide, by decide⟩,
   C2_other_token_applies_seconds (RedisDatabase.empty PyVal) 0
     (.bulk (ascii ("SET"))) (.bulk (ascii ("v"))) (ascii ("k")) (ascii ("AB"))
     (ascii ("7")) 7 rfl rfl rfl (by decide) (by decide)⟩

/-! ### Claim C5 -/

/-- Claim C5 counterexample: `process_echo` accepts every arity `>= 2` — a
3-element ECHO echoes its first argument instead of replying the
wrong-number-of-arguments error the claim requires. -/
theorem C5_counterexample :
    process_echo [.bulk (ascii ("ECHO")), .bulk (ascii ("a")), .bulk (ascii ("b"))]
      = .ok (ascii ("$1\r\na\r\n")) :=
  rfl

/-- Claim C5 as amended: ECHO replies `BulkString(arg1)` for every arity
`>= 2` (extra arguments are ignored), and only arity `< 2` (the bare
`ECHO`) produces the wrong-number-of-arguments reply, whose wire text
carries the conventional `ERR ` prefix. -/
theorem C5_echo_ge_two (msg : List PyVal) (b : Bytes) :
    (2 ≤ msg.length → msg.get? 1 = some (.bulk b) → process_echo msg = .ok (bulkReply b))
    ∧ (msg.length < 2 → process_echo msg = .ok (wrongArity ("echo"))) := by
  constructor
  · intro h2 hb
    rw [List.get?_eq_getElem?] at hb
    simp [process_echo, h2, hb]
  · intro h2
    simp [process_echo, Nat.not_le.mpr h2]

/-- Witness for C5 at the 2-element command `ECHO hi`. -/
theorem C5_witness :
    (2 ≤ ([PyVal.bulk (ascii ("ECHO")), PyVal.bulk (ascii ("hi"))] : List PyVal).length
     ∧ ([PyVal.bulk (ascii ("ECHO")), PyVal.bulk (ascii ("hi"))] : List PyVal).get? 1
        = some (.bulk (ascii ("hi"))))
    ∧ process_echo [.bulk (ascii ("ECHO")), .bulk (ascii ("hi"))]
        = .ok (bulkReply (ascii ("hi"))) :=
  ⟨⟨by decide, rfl⟩,
   (C5_echo_ge_two [.bulk (ascii ("ECHO")), .bulk (ascii ("hi"))] (ascii ("hi"))).1
     (by decide) rfl⟩

/-! ### Claim C7 -/

/-- Claim C3 counterexample: the chunk `+OK\r\n` decodes to the truthy
non-array scalar `"OK"`, and the handler does not reply "Invalid command
format" with the connection open — subscripting the string and calling
`.decode` on the character raises, so the client gets the generic
internal-error reply and the connection is closed. -/
theorem C3_counterexample :
    handle_client (RedisDatabase.empty PyVal) 0 (ascii ("+OK\r\n"))
      = (.internalError .attributeError, RedisDatabase.empty PyVal) :=
  rfl

/-- Claim C3 as amended: only a falsy decoded top-level value — `None`
(null array or null bulk string), an empty array, an empty simple
string/error, or the integer 0 — yields the Error "Invalid command format"
reply with the connection left open; a truthy non-array scalar instead
raises while being subscripted, producing the generic internal-error reply
and closing the connection; an empty chunk closes the connection with no
reply at all. -/
theorem C3_nonarray_handling (db : RedisDatabase PyVal) (now : Time) (data : Bytes)
    (v : PyVal) :
    (data ≠ [] → RESPParser.parse data = .ok none →
      handle_client db now data
        = (.reply (ascii ("-ERR Invalid command format") ++ crlf), db))
    ∧ (RESPParser.parse data = .ok (some v) → pyvalTruthy v = false →
      handle_client db now data
        = (.reply (ascii ("-ERR Invalid command format") ++ crlf), db))
    ∧ (RESPParser.parse data = .ok (some v) → pyvalTruthy v = true →
      (∀ xs, v ≠ .list xs) →
      ∃ e, handle_client db now data = (.internalError e, db))
    ∧ handle_client db now [] = (.closedNoReply, db) := by
  refine ⟨?_, ?_, ?_, rfl⟩
  · intro hne hp
    have hne2 : data.isEmpty = false := by
      cases data with
      | nil => exact absurd rfl hne
      | cons a l => rfl
    simp [handle_client, hne2, hp, pyTruthyOpt]
  · intro hp hf
    have hne2 : data.isEmpty = false := by
      cases data with
      | nil => rw [show RESPParser.parse ([] : Bytes) = .ok none from rfl] at hp; simp at hp
      | cons a l => rfl
    simp [handle_client, hne2, hp, pyTruthyOpt, hf]
  · intro hp ht hnl
    have hne2 : data.isEmpty = false := by
      cases data with
      | nil => rw [show RESPParser.parse ([] : Bytes) = .ok none from rfl] at hp; simp at hp
      | cons a l => rfl
    cases v with
    | bulk b => exact ⟨.attributeError, by simp [handle_client, hne2, hp, pyTruthyOpt, ht]⟩
    | str s => exact ⟨.attributeError, by simp [handle_client, hne2, hp, pyTruthyOpt, ht]⟩
    | int n => exact ⟨.typeError, by simp [handle_client, hne2, hp, pyTruthyOpt, ht]⟩
    | list xs => exact absurd rfl (hnl xs)

/-- Witness for C3 on the null-array chunk `*-1\r\n`. -/
theorem C3_witness :
    (ascii ("*-1\r\n") ≠ [] ∧ RESPParser.parse (ascii ("*-1\r\n")) = .ok none)
    ∧ handle_client (RedisDatabase.empty PyVal) 0 (ascii ("*-1\r\n"))
        = (.reply (ascii ("-ERR Invalid command format") ++ crlf),
           RedisDatabase.empty PyVal) :=
  ⟨⟨by decide, rfl⟩,
   (C3_nonarray_handling (RedisDatabase.empty PyVal) 0 (ascii ("*-1\r\n")) (.int 0)).1
     (by decide) rfl⟩

/-! ### Claim C9: store safety under every reachable state -/

/-- The store invariant: the expiry dict has distinct keys (true of every
Python dict) and every key holding an expiry is also present in the data
dict — exactly what the unguarded `del self.data[key]` in `get` and in the
sweep rely on. -/
def StoreInv {V : Type} (db : RedisDatabase V) : Prop :=
  NodupKeys db.expires ∧
    ∀ k e, dlookup db.expires k = some e → (dlookup db.data k).isSome = true

theorem storeInv_empty {V : Type} : StoreInv (RedisDatabase.empty V) := by
  refine ⟨List.nodup_nil, ?_⟩
  intro k e h
  simp [RedisDatabase.empty, dlookup] at h

/-- Erasing one key from both dicts preserves the invariant. -/
theorem storeInv_erase_both {V : Type} {db : RedisDatabase V} (h : StoreInv db) (k : Key) :
    StoreInv (⟨derase db.data k, derase db.expires k⟩ : RedisDatabase V) := by
  refine ⟨nodupKeys_derase h.1 k, ?_⟩
  intro k2 e2 he2
  rw [dlookup_derase] at he2
  by_cases hk : k2 = k
  · simp [hk] at he2
  · rw [if_neg hk] at he2
    rw [dlookup_derase, if_neg hk]
    exact h.2 k2 e2 he2

theorem storeInv_set {V : Type} {db : RedisDatabase V} (h : StoreInv db)
    (k : Key) (v : V) (exp : Option Time) (now : Time) :
    StoreInv (db.set k v exp now) := by
  cases exp with
  | some e =>
    refine ⟨nodupKeys_dinsert h.1 k (now + e), ?_⟩
    intro k2 e2 he2
    simp only [RedisDatabase.set] at he2 ⊢
    rw [dlookup_dinsert] at he2
    rw [dlookup_dinsert]
    by_cases hk : k2 = k
    · simp [hk]
    · rw [if_neg hk] at he2
      rw [if_neg hk]
      exact h.2 k2 e2 he2
  | none =>
    refine ⟨nodupKeys_derase h.1 k, ?_⟩
    intro k2 e2 he2
    simp only [RedisDatabase.set] at he2 ⊢
    rw [dlookup_derase] at he2
    rw [dlookup_dinsert]
    by_cases hk : k2 = k
    · simp [hk]
    · rw [if_neg hk] at he2
      rw [if_neg hk]
      exact h.2 k2 e2 he2

/-- Under the invariant, `get` never raises, and its resulting state keeps
the invariant. -/
theorem get_total {V : Type} {db : RedisDatabase V} (h : StoreInv db) (k : Key) (now : Time) :
    ∃ r db2, db.get k now = .ok (r, db2) ∧ StoreInv db2 := by
  unfold RedisDatabase.get
  cases he : dlookup db.expires k with
  | none => exact ⟨_, _, rfl, h⟩
  | some e =>
    by_cases hlt : e < now
    · have hsome := h.2 k e he
      cases hd : dlookup db.data k with
      | none => rw [hd] at hsome; simp at hsome
      | some v =>
        refine ⟨none, _, ?_, storeInv_erase_both h k⟩
        simp [hlt]
    · exact ⟨dlookup db.data k, db, by simp [hlt], h⟩

theorem storeInv_get {V : Type} {db db2 : RedisDatabase V} {k : Key} {now : Time}
    {r : Option V} (h : StoreInv db) (hg : db.get k now = .ok (r, db2)) : StoreInv db2 := by
  obtain ⟨r2, db3, hg2, hinv⟩ := get_total h k now
  rw [hg] at hg2
  injection hg2 with hpair
  injection hpair with _ hdb
  exact hdb ▸ hinv

theorem storeInv_delete {V : Type} {db : RedisDatabase V} (h : StoreInv db) (k : Key) :
    StoreInv (db.delete k).2 := by
  unfold RedisDatabase.delete
  cases hd : (dlookup db.data k).isSome with
  | true => simpa [hd] using storeInv_erase_both h k
  | false => simpa [hd] using h

/-- The deletion loop of the sweep succeeds and preserves the invariant whenever
the listed keys are distinct and each is present in both dicts. -/
theorem delExpiredLoop_total {V : Type} :
    ∀ (ks : List Key) (db : RedisDatabase V), StoreInv db → ks.Nodup →
      (∀ k ∈ ks, (dlookup db.data k).isSome = true ∧ (dlookup db.expires k).isSome = true) →
      ∃ db2, delExpiredLoop ks db = .ok db2 ∧ StoreInv db2
  | [], db, h, _, _ => ⟨db, rfl, h⟩
  | k :: ks, db, h, hnd, hmem => by
    obtain ⟨hd, he⟩ := hmem k (List.mem_cons_self k ks)
    obtain ⟨v, hv⟩ := Option.isSome_iff_exists.mp hd
    obtain ⟨e, hee⟩ := Option.isSome_iff_exists.mp he
    have hnd2 := List.nodup_cons.mp hnd
    have hrest : ∃ db2,
        delExpiredLoop ks (⟨derase db.data k, derase db.expires k⟩ : RedisDatabase V)
          = .ok db2 ∧ StoreInv db2 := by
      refine delExpiredLoop_total ks _ (storeInv_erase_both h k) hnd2.2 ?_
      intro k2 hk2
      have hne : k2 ≠ k := fun hEq => hnd2.1 (hEq ▸ hk2)
      obtain ⟨hd2, he2⟩ := hmem k2 (List.mem_cons_of_mem k hk2)
      constructor
      · show (dlookup (derase db.data k) k2).isSome = true
        rw [dlookup_derase, if_neg hne]
        exact hd2
      · show (dlookup (derase db.expires k) k2).isSome = true
        rw [dlookup_derase, if_neg hne]
        exact he2
    obtain ⟨db2, hloop, hinv2⟩ := hrest
    refine ⟨db2, ?_, hinv2⟩
    simp only [delExpiredLoop]
    rw [hv, hee]
    exact hloop

/-- Under the invariant, one sweep iteration never raises and preserves the
invariant. -/
theorem remove_expired_total {V : Type} {db : RedisDatabase V} (h : StoreInv db)
    (now : Time) :
    ∃ db2, db.remove_expired_keys now = .ok db2 ∧ StoreInv db2 := by
  unfold RedisDatabase.remove_expired_keys
  refine delExpiredLoop_total _ db h ?_ ?_
  · exact List.Nodup.sublist (List.Sublist.map Prod.fst (List.filter_sublist _)) h.1
  · intro k hk
    have hmem : k ∈ db.expires.map Prod.fst := by
      rcases List.mem_map.mp hk with ⟨p, hp, rfl⟩
      exact List.mem_map.mpr ⟨p, (List.mem_filter.mp hp).1, rfl⟩
    have hesome : (dlookup db.expires k).isSome = true :=
      (mem_keys_iff_dlookup_isSome _ _).mp hmem
    obtain ⟨e, he⟩ := Option.isSome_iff_exists.mp hesome
    exact ⟨h.2 k e he, hesome⟩

/-- The states reachable from the freshly constructed store through its
operations (each at an arbitrary instant). `exists` reads without mutating
and the dispatcher only ever calls these four mutators. -/
inductive Reachable (V : Type) : RedisDatabase V → Prop where
  | start : Reachable V (RedisDatabase.empty V)
  | setStep (db : RedisDatabase V) (k : Key) (v : V) (exp : Option Time) (now : Time) :
      Reachable V db → Reachable V (db.set k v exp now)
  | getStep (db db2 : RedisDatabase V) (k : Key) (now : Time) (r : Option V) :
      Reachable V db → db.get k now = .ok (r, db2) → Reachable V db2
  | delStep (db : RedisDatabase V) (k : Key) :
      Reachable V db → Reachable V (db.delete k).2
  | sweepStep (db db2 : RedisDatabase V) (now : Time) :
      Reachable V db → db.remove_expired_keys now = .ok db2 → Reachable V db2

theorem reachable_storeInv {V : Type} {db : RedisDatabase V} (h : Reachable V db) :
    StoreInv db := by
  induction h with
  | start => exact storeInv_empty
  | setStep db k v exp now _ ih => exact storeInv_set ih k v exp now
  | getStep db db2 k now r _ hg ih => exact storeInv_get ih hg
  | delStep db k _ ih => exact storeInv_delete ih k
  | sweepStep db db2 now _ hs ih =>
    obtain ⟨db3, h3, hinv⟩ := remove_expired_total ih now
    rw [hs] at h3
    injection h3 with hdb
    exact hdb ▸ hinv

/-- Claim C9: every reachable store state satisfies the invariant that each
key of the expiry dict is present in the data dict, so the store operations
have no failure mode — in particular the unguarded `del self.data[key]`
inside `get` and inside the periodic sweep always finds the key (`set`,
`delete` and `exists` are total by construction). -/
theorem C9_reachable_safe (V : Type) (db : RedisDatabase V) (h : Reachable V db) :
    (∀ k e, dlookup db.expires k = some e → (dlookup db.data k).isSome = true)
    ∧ (∀ k now, ∃ r db2, db.get k now = .ok (r, db2))
    ∧ (∀ now, ∃ db2, db.remove_expired_keys now = .ok db2) := by
  have hinv := reachable_storeInv h
  refine ⟨hinv.2, ?_, ?_⟩
  · intro k now
    obtain ⟨r, db2, hg, _⟩ := get_total hinv k now
    exact ⟨r, db2, hg⟩
  · intro now
    obtain ⟨db2, hs, _⟩ := remove_expired_total hinv now
    exact ⟨db2, hs⟩

/-- Witness for C9 at the initial store. -/
theorem C9_witness :
    ∃ r db2, (RedisDatabase.empty Nat).get [97] 0 = .ok (r, db2) :=
  (C9_reachable_safe Nat (RedisDatabase.empty Nat) Reachable.start).2.1 [97] 0

/-! ### Claim C10 -/

/-- Claim C10: a 5-arity SET whose 5th argument the `float()` conversion
rejects — neither a finite decimal literal (underscore grouping included)
nor an accepted IEEE special — makes `process_set` raise `ValueError`
before touching the store; the exception escapes to the catch-all in
`handle_client`, which writes the generic internal-error reply and closes
the connection — no per-command Error reply is produced and the store is
unchanged. -/
theorem C10_unparseable_ttl_closes (db : RedisDatabase PyVal) (now : Time)
    (data : Bytes) (m0 m2 m3 : PyVal) (k b4 nm : Bytes)
    (hp : RESPParser.parse data = .ok (some (.list [m0, .bulk k, m2, m3, .bulk b4])))
    (hm0 : pyDecode m0 = .ok nm) (hcmd : asciiUpper nm = ascii ("SET"))
    (hk : utf8Valid k = true)
    (hbad : pyFloat? b4 = none) (hspec : pyFloatSpecial b4 = false) :
    handle_client db now data = (.internalError .valueError, db) := by
  have hne2 : data.isEmpty = false := by
    cases data with
    | nil => rw [show RESPParser.parse ([] : Bytes) = .ok none from rfl] at hp; simp at hp
    | cons a l => rfl
  have hset : process_set db [m0, .bulk k, m2, m3, .bulk b4] now
      = (.error .valueError, db) := by
    simp [process_set, pyDecode, hk, pyFloatVal, hbad, hspec]
  have hping : ascii ("SET") ≠ ascii ("PING") := by decide
  have hecho : ascii ("SET") ≠ ascii ("ECHO") := by decide
  have hget : ascii ("SET") ≠ ascii ("GET") := by decide
  simp [handle_client, hne2, hp, pyTruthyOpt, pyvalTruthy, hm0, hcmd, dispatch,
        hping, hecho, hget, hset]

/-- Witness for C10 on the concrete chunk `SET k v EX z`. -/
theorem C10_witness :
    (RESPParser.parse
        (ascii ("*5\r\n$3\r\nSET\r\n$1\r\nk\r\n$1\r\nv\r\n$2\r\nEX\r\n$1\r\nz\r\n"))
      = .ok (some (.list [.bulk (ascii ("SET")), .bulk (ascii ("k")),
          .bulk (ascii ("v")), .bulk (ascii ("EX")), .bulk (ascii ("z"))]))
     ∧ pyDecode (.bulk (ascii ("SET"))) = .ok (ascii ("SET"))
     ∧ asciiUpper (ascii ("SET")) = ascii ("SET")
     ∧ utf8Valid (ascii ("k")) = true
     ∧ pyFloat? (ascii ("z")) = none ∧ pyFloatSpecial (ascii ("z")) = false)
    ∧ handle_client (RedisDatabase.empty PyVal) 0
        (ascii ("*5\r\n$3\r\nSET\r\n$1\r\nk\r\n$1\r\nv\r\n$2\r\nEX\r\n$1\r\nz\r\n"))
      = (.internalError .valueError, RedisDatabase.empty PyVal) :=
  ⟨⟨rfl, rfl, rfl, rfl, rfl, rfl⟩,
   C10_unparseable_ttl_closes (RedisDatabase.empty PyVal) 0
     (ascii ("*5\r\n$3\r\nSET\r\n$1\r\nk\r\n$1\r\nv\r\n$2\r\nEX\r\n$1\r\nz\r\n"))
     (.bulk (ascii ("SET"))) (.bulk (ascii ("v"))) (.bulk (ascii ("EX")))
     (ascii ("k")) (ascii ("z")) (ascii ("SET")) rfl rfl rfl rfl rfl rfl⟩

/-- Boundary of the `float()` rejection set: the underscore-grouped literal
`1_0` converts to 10 and the IEEE specials are accepted, so a SET carrying
them takes the success path — the command replies OK, the connection stays
open and the store is mutated — not the internal-error path of C10. -/
theorem set_accepted_ttl_boundary :
    pyFloat? (ascii ("1_0")) = some 10
    ∧ pyFloatSpecial (ascii ("inf")) = true
    ∧ pyFloatSpecial (ascii ("-Infinity")) = true
    ∧ pyFloatSpecial (ascii ("nan")) = true
    ∧ handle_client (RedisDatabase.empty PyVal) 0
        (ascii ("*5\r\n$3\r\nSET\r\n$1\r\nk\r\n$1\r\nv\r\n$2\r\nEX\r\n$3\r\n1_0\r\n"))
      = (.reply (ascii ("+OK\r\n")),
         (RedisDatabase.empty PyVal).set (ascii ("k")) (.bulk (ascii ("v"))) (some 10) 0)
    ∧ handle_client (RedisDatabase.empty PyVal) 0
        (ascii ("*5\r\n$3\r\nSET\r\n$1\r\nk\r\n$1\r\nv\r\n$2\r\nEX\r\n$3\r\ninf\r\n"))
      = (.reply (ascii ("+OK\r\n")),
         (RedisDatabase.empty PyVal).set (ascii ("k")) (.bulk (ascii ("v"))) none 0) :=
  ⟨rfl, rfl, rfl, rfl, rfl, rfl⟩

end CustomRedis
